import Mathlib

/-
  Shallow embedding of src/src/apply_to_imu.cpp (package `declination`):
  a ROS node that moves each incoming sensor_msgs/Imu sample into a target
  frame via tf and left-multiplies the orientation by a declination rotation.

  Modelling choices:
  * doubles are modelled over the reals;
  * ros::Time is modelled as an integer stamp; the default-constructed
    ros::Time() is the value 0, which the tf library interprets as "latest
    available transform";
  * the tf::TransformListener is an external collaborator, modelled as an
    arbitrary pair of fallible functions (a thrown tf exception is `.error`);
  * tf::Quaternion::setEuler and operator* are embedded from
    tf/LinearMath/Quaternion.h (the Bullet formulas), which is the library
    the source calls into.
-/

namespace Declination

/-- geometry_msgs/Quaternion: four components, doubles in the source, modelled
over the reals. -/
structure Quat where
  x : ℝ
  y : ℝ
  z : ℝ
  w : ℝ

/-- geometry_msgs/Vector3. -/
structure Vec3 where
  x : ℝ
  y : ℝ
  z : ℝ

/-- std_msgs/Header restricted to the fields the node reads or writes:
the stamp (ros::Time, modelled as an integer, with 0 standing for the
default-constructed ros::Time()) and the frame id. -/
structure Header where
  stamp : ℤ
  frame_id : String
  deriving DecidableEq

/-- sensor_msgs/Imu: the fields of the ROS message. -/
structure Imu where
  header : Header
  orientation : Quat
  orientation_covariance : Fin 9 → ℝ
  angular_velocity : Vec3
  angular_velocity_covariance : Fin 9 → ℝ
  linear_acceleration : Vec3
  linear_acceleration_covariance : Fin 9 → ℝ

/-- A default-constructed sensor_msgs::Imu, as produced by the generated
message constructor: every numeric field zero-initialized, empty frame id.
This is the local `sensor_msgs::Imu imu;` declared in handle_imu. -/
def Imu.mk_default : Imu :=
  { header := { stamp := 0, frame_id := "" }
    orientation := ⟨0, 0, 0, 0⟩
    orientation_covariance := fun _ => 0
    angular_velocity := ⟨0, 0, 0⟩
    angular_velocity_covariance := fun _ => 0
    linear_acceleration := ⟨0, 0, 0⟩
    linear_acceleration_covariance := fun _ => 0 }

/-- std_msgs/Float32, the payload of the `declination` channel. -/
structure Float32Msg where
  data : ℝ

/-- tf::Stamped of tf::Quaternion: the quaternion data together with the
stamp and frame id used when requesting a transform. -/
structure StampedQuat where
  data : Quat
  stamp : ℤ
  frame_id : String

/-- tf::Stamped of tf::Vector3. -/
structure StampedVec3 where
  data : Vec3
  stamp : ℤ
  frame_id : String

/-- tf::TransformException (and its subclasses), carrying a message. -/
inductive TfError where
  | transformException : String → TfError
  deriving DecidableEq

/-- The Frame Transform Resolver: the two tf::TransformListener operations the
node calls. It is an external collaborator, modelled as an arbitrary pair of
functions; a thrown tf exception is the `.error` case. -/
structure TransformListener where
  transformQuaternion : String → StampedQuat → Except TfError StampedQuat
  transformVector : String → StampedVec3 → Except TfError StampedVec3

/-- tf::Quaternion::setEuler from tf/LinearMath/Quaternion.h (the Bullet
formula). Its documented axis convention is: first argument yaw about the
Y axis, second argument pitch about the X axis, third argument roll about the
Z axis. This is distinct from setRPY, whose yaw is about the Z axis; the
source calls setEuler. -/
noncomputable def Quat.setEuler (yaw pitch roll : ℝ) : Quat :=
  let halfYaw := yaw / 2
  let halfPitch := pitch / 2
  let halfRoll := roll / 2
  let cosYaw := Real.cos halfYaw
  let sinYaw := Real.sin halfYaw
  let cosPitch := Real.cos halfPitch
  let sinPitch := Real.sin halfPitch
  let cosRoll := Real.cos halfRoll
  let sinRoll := Real.sin halfRoll
  ⟨cosYaw * sinPitch * cosRoll + sinYaw * cosPitch * sinRoll,
   sinYaw * cosPitch * cosRoll - cosYaw * sinPitch * sinRoll,
   cosYaw * cosPitch * sinRoll - sinYaw * sinPitch * cosRoll,
   cosYaw * cosPitch * cosRoll + sinYaw * sinPitch * sinRoll⟩

/-- tf::Quaternion::operator* from tf/LinearMath/Quaternion.h: the Hamilton
product of two quaternions. -/
def Quat.mul (q p : Quat) : Quat :=
  ⟨q.w * p.x + q.x * p.w + q.y * p.z - q.z * p.y,
   q.w * p.y + q.y * p.w + q.z * p.x - q.x * p.z,
   q.w * p.z + q.z * p.w + q.x * p.y - q.y * p.x,
   q.w * p.w - q.x * p.x - q.y * p.y - q.z * p.z⟩

/-- Squared Euclidean norm of a quaternion, for the normalization invariant. -/
def Quat.normSq (q : Quat) : ℝ :=
  q.x ^ 2 + q.y ^ 2 + q.z ^ 2 + q.w ^ 2

/-- A unit quaternion represents a rotation about the vertical axis only
(yaw, in the Z-up convention of REP 103 that sensor_msgs/Imu uses, with
pitch and roll zero) exactly when its x and y components vanish. -/
def Quat.IsPureYaw (q : Quat) : Prop :=
  q.x = 0 ∧ q.y = 0

/-- DeclinationTransform derives from tf::Transform; the node only ever sets
its rotation (setRotation in set_declination) and reads it back through
tf::Transform::operator* on a quaternion, which returns getRotation() * q.
The translation part is never set or read, so the holder is modelled by the
rotation it stores. -/
structure DeclinationTransform where
  rotation : Quat

/-- DeclinationTransform::set_declination: builds quat via
setEuler(decl, 0.0, 0.0) and overwrites the held rotation with it
(setRotation). The previous state is discarded entirely. -/
noncomputable def DeclinationTransform.set_declination
    (_t : DeclinationTransform) (decl : ℝ) : DeclinationTransform :=
  { rotation := Quat.setEuler decl 0 0 }

/-- DeclinationTransform::msg: the `declination` channel callback; unpacks the
scalar and forwards it to set_declination. -/
noncomputable def DeclinationTransform.msg
    (t : DeclinationTransform) (declination_msg : Float32Msg) :
    DeclinationTransform :=
  t.set_declination declination_msg.data

/-- The stamped quaternion imu_to_frame hands to transformQuaternion.
In the source, `tf::Stamped<tf::Quaternion> orient_in` is default-constructed
(stamp_ is ros::Time(), i.e. 0); tf::quaternionMsgToTF writes only the four
quaternion components through the Quaternion base reference; the code then
assigns frame_id_ from the input header but never assigns stamp_, so every
request is stamped 0. -/
def orient_request (imu_in : Imu) : StampedQuat :=
  { data := imu_in.orientation, stamp := 0, frame_id := imu_in.header.frame_id }

/-- The stamped angular-velocity vector imu_to_frame hands to transformVector;
stamped 0 for the same reason as orient_request. -/
def vel_request (imu_in : Imu) : StampedVec3 :=
  { data := imu_in.angular_velocity, stamp := 0
    frame_id := imu_in.header.frame_id }

/-- The stamped linear-acceleration vector imu_to_frame hands to
transformVector; stamped 0 for the same reason as orient_request. -/
def accel_request (imu_in : Imu) : StampedVec3 :=
  { data := imu_in.linear_acceleration, stamp := 0
    frame_id := imu_in.header.frame_id }

/-- static void imu_to_frame(tf_listener, tf_link, imu_in, imu_out): transforms
the orientation, the angular velocity and the linear acceleration through the
listener into tf_link, one independent resolver call each, writes the results
into the caller-supplied output message, and restamps its header with the
input stamp and tf_link. A tf exception aborts the function before the
publish-relevant result exists; this is the `.error` case. -/
def imu_to_frame (tf_listener : TransformListener) (tf_link : String)
    (imu_in : Imu) (imu_out : Imu) : Except TfError Imu :=
  match tf_listener.transformQuaternion tf_link (orient_request imu_in) with
  | .error e => .error e
  | .ok orient_out =>
    match tf_listener.transformVector tf_link (vel_request imu_in) with
    | .error e => .error e
    | .ok vel_out =>
      match tf_listener.transformVector tf_link (accel_request imu_in) with
      | .error e => .error e
      | .ok accel_out =>
        .ok { imu_out with
              orientation := orient_out.data
              angular_velocity := vel_out.data
              linear_acceleration := accel_out.data
              header := { stamp := imu_in.header.stamp, frame_id := tf_link } }

/-- static void handle_imu(imu_ptr, pub_imu, tf_listener, transform, tf_link):
declares a default-constructed local sensor_msgs::Imu, calls imu_to_frame on
the input, left-multiplies the transformed orientation by the declination
rotation (tf::Transform::operator* on a quaternion is getRotation() * q) and
yields the message that pub_imu.publish receives. The function has no
try/catch, so a resolver failure escapes as an exception (`.error`) and the
publish statement is never reached. -/
def handle_imu (imu_ptr : Imu) (tf_listener : TransformListener)
    (transform : DeclinationTransform) (tf_link : String) :
    Except TfError Imu :=
  match imu_to_frame tf_listener tf_link imu_ptr Imu.mk_default with
  | .error e => .error e
  | .ok imu => .ok { imu with orientation := transform.rotation.mul imu.orientation }

/-- The process state one handle_imu invocation can see: the caller's sample
(held behind a ConstPtr by the messaging layer), the declination holder
(captured by reference in main), the list of messages published on data_decl
so far, and the diagnostics logged so far. The source contains no logging
statement at all. -/
structure HandlerState where
  caller_sample : Imu
  declination : DeclinationTransform
  published : List Imu
  diagnostics : List String

/-- One invocation of handle_imu against the process state. On success the
only side effect in the source is the single pub_imu.publish(imu); on a
resolver failure the exception propagates out of the handler (second
component `some e`) and no statement of the handler publishes, logs, or
writes to the caller's sample or to the declination holder. -/
def handle_imu_run (st : HandlerState) (tf_listener : TransformListener)
    (tf_link : String) : HandlerState × Option TfError :=
  match handle_imu st.caller_sample tf_listener st.declination tf_link with
  | .error e => (st, some e)
  | .ok imu => ({ st with published := st.published ++ [imu] }, none)

/-- Startup from main: `np.param<double>("default", declination_rads, 0.0)`
followed by `declination_transform.set_declination(declination_rads)`.
The parameter server is modelled as a partial map; a missing `default`
parameter yields 0.0. The rotation of the default-constructed tf::Transform
before the set_declination call is never read (set_declination overwrites
it); the zero quaternion stands in for that uninitialized value. -/
noncomputable def startup_declination (params : String → Option ℝ) :
    DeclinationTransform :=
  DeclinationTransform.set_declination ⟨⟨0, 0, 0, 0⟩⟩ ((params "default").getD 0)

/-- Identity resolver fixture: every transform request succeeds and returns
its input unchanged. -/
def tl_id : TransformListener :=
  ⟨fun _ sq => .ok sq, fun _ sv => .ok sv⟩

/-- Always-failing resolver fixture: every request raises a tf exception. -/
def tl_fail : TransformListener :=
  ⟨fun _ _ => .error (.transformException "no transform"),
   fun _ _ => .error (.transformException "no transform")⟩

/-- Probe resolver fixture that serves exactly the requests stamped at time 5
(the timestamp of sampleA below): it succeeds on a request if and only if the
request carries the sample's own timestamp. -/
def probe_tl : TransformListener :=
  ⟨fun _ sq => if sq.stamp = 5 then .ok sq
               else .error (.transformException "extrapolation"),
   fun _ sv => if sv.stamp = 5 then .ok sv
               else .error (.transformException "extrapolation")⟩

/-- Concrete input sample fixture: stamped 5 in frame imu_link, identity
orientation, nonzero covariance entries. -/
noncomputable def sampleA : Imu :=
  { header := { stamp := 5, frame_id := "imu_link" }
    orientation := ⟨0, 0, 0, 1⟩
    orientation_covariance := fun _ => 1
    angular_velocity := ⟨1, 2, 3⟩
    angular_velocity_covariance := fun _ => 1
    linear_acceleration := ⟨0, 0, 9⟩
    linear_acceleration_covariance := fun _ => 1 }

/-- Declination holder fixture currently holding the identity rotation. -/
noncomputable def trId : DeclinationTransform := ⟨⟨0, 0, 0, 1⟩⟩

/-- Process-state fixture: sampleA pending, identity declination, nothing
published or logged yet. -/
noncomputable def stA : HandlerState := ⟨sampleA, trId, [], []⟩

/-- The message imu_to_frame produces from sampleA under tl_id. -/
noncomputable def tA : Imu :=
  { Imu.mk_default with
    orientation := sampleA.orientation
    angular_velocity := sampleA.angular_velocity
    linear_acceleration := sampleA.linear_acceleration
    header := { stamp := sampleA.header.stamp, frame_id := "base_link" } }

/-- The message handle_imu publishes from sampleA under tl_id and trId. -/
noncomputable def outA : Imu :=
  { tA with orientation := trId.rotation.mul tA.orientation }

/-- Simplification of setEuler at pitch = roll = 0: a rotation of the given
angle about the Y axis. -/
theorem setEuler_yaw_only (a : ℝ) :
    Quat.setEuler a 0 0 = ⟨0, Real.sin (a / 2), 0, Real.cos (a / 2)⟩ := by
  simp [Quat.setEuler]

/-- Success characterization of imu_to_frame: it succeeds exactly when the
three independent resolver calls succeed, and the output is the input output
message with the three transformed quantities and the relabelled header
written into it. -/
theorem imu_to_frame_ok_elim (tl : TransformListener) (l : String)
    (i o t : Imu) (h : imu_to_frame tl l i o = .ok t) :
    ∃ oq vq aq,
      tl.transformQuaternion l (orient_request i) = .ok oq ∧
      tl.transformVector l (vel_request i) = .ok vq ∧
      tl.transformVector l (accel_request i) = .ok aq ∧
      t = { o with
            orientation := oq.data
            angular_velocity := vq.data
            linear_acceleration := aq.data
            header := { stamp := i.header.stamp, frame_id := l } } := by
  unfold imu_to_frame at h
  cases h1 : tl.transformQuaternion l (orient_request i) with
  | error e => rw [h1] at h; cases h
  | ok oq =>
    rw [h1] at h
    cases h2 : tl.transformVector l (vel_request i) with
    | error e => rw [h2] at h; cases h
    | ok vq =>
      rw [h2] at h
      cases h3 : tl.transformVector l (accel_request i) with
      | error e => rw [h3] at h; cases h
      | ok aq =>
        rw [h3] at h
        exact ⟨oq, vq, aq, rfl, rfl, rfl, (Except.ok.injEq _ _).mp h.symm⟩

/-- Success characterization of handle_imu in terms of imu_to_frame. -/
theorem handle_imu_ok_elim (i : Imu) (tl : TransformListener)
    (tr : DeclinationTransform) (l : String) (out : Imu)
    (h : handle_imu i tl tr l = .ok out) :
    ∃ t, imu_to_frame tl l i Imu.mk_default = .ok t ∧
      out = { t with orientation := tr.rotation.mul t.orientation } := by
  unfold handle_imu at h
  cases h1 : imu_to_frame tl l i Imu.mk_default with
  | error e => rw [h1] at h; cases h
  | ok t =>
    rw [h1] at h
    exact ⟨t, rfl, (Except.ok.injEq _ _).mp h.symm⟩

/-- C1 (amended): if the Frame Transform Resolver fails for a sample, the
IMU Message Handler publishes nothing for that sample and emits no
diagnostic; the failure leaves the handler as an uncaught exception instead
of being reported and absorbed. -/
theorem handle_imu_drop_on_failure (st : HandlerState)
    (tl : TransformListener) (l : String) (e : TfError)
    (h : imu_to_frame tl l st.caller_sample Imu.mk_default = .error e) :
    (handle_imu_run st tl l).1.published = st.published ∧
    (handle_imu_run st tl l).1.diagnostics = st.diagnostics ∧
    (handle_imu_run st tl l).2 = some e := by
  have hh : handle_imu st.caller_sample tl st.declination l = .error e := by
    unfold handle_imu
    rw [h]
  simp [handle_imu_run, hh]

/-- C1 (witness): at the always-failing resolver and the fixture state, the
invocation publishes nothing, logs nothing, and surfaces the tf exception. -/
theorem handle_imu_drop_on_failure_witness :
    (handle_imu_run stA tl_fail "base_link").1.published = stA.published ∧
    (handle_imu_run stA tl_fail "base_link").1.diagnostics = stA.diagnostics ∧
    (handle_imu_run stA tl_fail "base_link").2 =
      some (.transformException "no transform") :=
  handle_imu_drop_on_failure stA tl_fail "base_link"
    (.transformException "no transform") rfl

/-- C1 (counterexample): at a concrete failing resolver the handler emits no
diagnostic at all — its diagnostics list is still empty after the invocation
— and the failure escapes as an exception; this contradicts the claim that a
diagnostic is emitted to the operator and that the system cleanly absorbs
the failure. -/
theorem handle_imu_failure_no_diagnostic_cex :
    (handle_imu_run stA tl_fail "base_link").1.published = [] ∧
    (handle_imu_run stA tl_fail "base_link").1.diagnostics = [] ∧
    (handle_imu_run stA tl_fail "base_link").2 =
      some (.transformException "no transform") :=
  ⟨rfl, rfl, rfl⟩

/-- C2 (amended): imu_to_frame transforms orientation, angular velocity and
linear acceleration independently, one resolver call each, from the sample's
source frame into tf_link — but every request is stamped 0 (the
default-constructed ros::Time(), which tf reads as "latest available"), not
with the sample's timestamp. -/
theorem imu_to_frame_three_requests (tl : TransformListener) (l : String)
    (i o : Imu) (oq : StampedQuat) (vq aq : StampedVec3)
    (h1 : tl.transformQuaternion l (orient_request i) = .ok oq)
    (h2 : tl.transformVector l (vel_request i) = .ok vq)
    (h3 : tl.transformVector l (accel_request i) = .ok aq) :
    imu_to_frame tl l i o =
      .ok { o with
            orientation := oq.data
            angular_velocity := vq.data
            linear_acceleration := aq.data
            header := { stamp := i.header.stamp, frame_id := l } } ∧
    (orient_request i).data = i.orientation ∧
    (orient_request i).frame_id = i.header.frame_id ∧
    (orient_request i).stamp = 0 ∧
    (vel_request i).data = i.angular_velocity ∧
    (vel_request i).frame_id = i.header.frame_id ∧
    (vel_request i).stamp = 0 ∧
    (accel_request i).data = i.linear_acceleration ∧
    (accel_request i).frame_id = i.header.frame_id ∧
    (accel_request i).stamp = 0 := by
  refine ⟨?_, rfl, rfl, rfl, rfl, rfl, rfl, rfl, rfl, rfl⟩
  unfold imu_to_frame
  rw [h1, h2, h3]

/-- C2 (witness): the identity resolver serves all three requests and the
output message carries the three transformed quantities and the relabelled
header. -/
theorem imu_to_frame_three_requests_witness :
    imu_to_frame tl_id "base_link" sampleA Imu.mk_default =
      .ok { Imu.mk_default with
            orientation := sampleA.orientation
            angular_velocity := sampleA.angular_velocity
            linear_acceleration := sampleA.linear_acceleration
            header := { stamp := sampleA.header.stamp
                        frame_id := "base_link" } } :=
  (imu_to_frame_three_requests tl_id "base_link" sampleA Imu.mk_default
    (orient_request sampleA) (vel_request sampleA) (accel_request sampleA)
    rfl rfl rfl).1

/-- C2 (counterexample): the fixture sample is stamped 5, yet each of the
three transform requests the code constructs for it is stamped 0, and a
resolver that serves exactly the sample's own timestamp rejects the code's
requests — refuting the claim that each transform is requested at the
sample's timestamp. -/
theorem imu_requests_not_at_sample_stamp_cex :
    sampleA.header.stamp = 5 ∧
    (orient_request sampleA).stamp = 0 ∧
    (vel_request sampleA).stamp = 0 ∧
    (accel_request sampleA).stamp = 0 ∧
    imu_to_frame probe_tl "base_link" sampleA Imu.mk_default =
      .error (.transformException "extrapolation") :=
  ⟨rfl, rfl, rfl, rfl, rfl⟩

/-- C3 (code bug): at declination angle pi/2, the rotation held after
set_declination is (0, sin(pi/4), 0, cos(pi/4)) — a normalized rotation
about the Y axis (a pitch rotation in the Z-up convention of sensor_msgs/Imu
data), not a rotation about the vertical yaw axis: tf setEuler's first
argument rotates about Y, while the node's stated purpose (a heading offset)
requires the Z axis (setRPY). -/
theorem set_declination_about_y_axis_cex :
    (DeclinationTransform.set_declination ⟨⟨0, 0, 0, 0⟩⟩ (Real.pi / 2)).rotation
      = ⟨0, Real.sin (Real.pi / 4), 0, Real.cos (Real.pi / 4)⟩ ∧
    ((DeclinationTransform.set_declination ⟨⟨0, 0, 0, 0⟩⟩
        (Real.pi / 2)).rotation).normSq = 1 ∧
    ¬ ((DeclinationTransform.set_declination ⟨⟨0, 0, 0, 0⟩⟩
        (Real.pi / 2)).rotation).IsPureYaw := by
  have hq : (DeclinationTransform.set_declination ⟨⟨0, 0, 0, 0⟩⟩
      (Real.pi / 2)).rotation
      = ⟨0, Real.sin (Real.pi / 4), 0, Real.cos (Real.pi / 4)⟩ := by
    show Quat.setEuler (Real.pi / 2) 0 0 = _
    have h24 : Real.pi / 2 / 2 = Real.pi / 4 := by ring
    rw [setEuler_yaw_only, h24]
  have hs : 0 < Real.sin (Real.pi / 4) := by
    apply Real.sin_pos_of_pos_of_lt_pi
    · positivity
    · linarith [Real.pi_pos]
  refine ⟨hq, ?_, ?_⟩
  · rw [hq]
    show (0 : ℝ) ^ 2 + Real.sin (Real.pi / 4) ^ 2 + 0 ^ 2
        + Real.cos (Real.pi / 4) ^ 2 = 1
    have := Real.sin_sq_add_cos_sq (Real.pi / 4)
    linarith
  · rw [hq]
    rintro ⟨-, hy⟩
    exact absurd hy (ne_of_gt hs)

/-- C4: every successfully processed sample is published with header frame
id equal to the configured tf_link and header stamp equal to the input
sample's stamp, whatever the resolver returned for the content. -/
theorem handle_imu_header_relabel (i : Imu) (tl : TransformListener)
    (tr : DeclinationTransform) (l : String) (out : Imu)
    (h : handle_imu i tl tr l = .ok out) :
    out.header.frame_id = l ∧ out.header.stamp = i.header.stamp := by
  obtain ⟨t, h1, rfl⟩ := handle_imu_ok_elim i tl tr l out h
  obtain ⟨oq, vq, aq, -, -, -, rfl⟩ :=
    imu_to_frame_ok_elim tl l i Imu.mk_default t h1
  exact ⟨rfl, rfl⟩

/-- C4 (witness): the concrete successful run publishes outA with frame
base_link and the input's stamp. -/
theorem handle_imu_header_relabel_witness :
    outA.header.frame_id = "base_link" ∧
    outA.header.stamp = sampleA.header.stamp :=
  handle_imu_header_relabel sampleA tl_id trId "base_link" outA rfl

/-- C5: on success the published message is exactly the frame-transformed
message with its orientation replaced by declination-rotation * orientation
(composition on the left); no other field is touched by the declination
step, and the invocation leaves the held rotation unchanged. -/
theorem handle_imu_declination_left_mul (st : HandlerState)
    (tl : TransformListener) (l : String) (t : Imu)
    (h : imu_to_frame tl l st.caller_sample Imu.mk_default = .ok t) :
    handle_imu st.caller_sample tl st.declination l =
      .ok { t with orientation := st.declination.rotation.mul t.orientation } ∧
    (handle_imu_run st tl l).1.declination = st.declination := by
  constructor
  · unfold handle_imu
    rw [h]
  · cases hh : handle_imu st.caller_sample tl st.declination l <;>
      simp [handle_imu_run, hh]

/-- C5 (witness): at the concrete successful run, the published message is
the frame-transformed tA with its orientation left-multiplied by the held
rotation, and the holder is unchanged. -/
theorem handle_imu_declination_left_mul_witness :
    handle_imu stA.caller_sample tl_id stA.declination "base_link" =
      .ok { tA with orientation := stA.declination.rotation.mul tA.orientation } ∧
    (handle_imu_run stA tl_id "base_link").1.declination = stA.declination :=
  handle_imu_declination_left_mul stA tl_id "base_link" tA rfl

/-- C6: set_declination fully replaces the held rotation: setting angle a
and then angle b ends in exactly the state of any holder set directly with
b; nothing of the previous value is composed in. -/
theorem set_declination_fully_replaces (t0 t1 : DeclinationTransform)
    (a b : ℝ) :
    (t0.set_declination a).set_declination b = t1.set_declination b := rfl

/-- C7: with declination angle 0 the held rotation is the identity
quaternion, and applying it to any orientation returns that orientation
unchanged. -/
theorem apply_zero_declination_is_identity (t : DeclinationTransform)
    (q : Quat) :
    ((t.set_declination 0).rotation).mul q = q := by
  cases q
  simp [DeclinationTransform.set_declination, Quat.setEuler, Quat.mul]

/-- C8: with no declination update ever received, the holder is the startup
value built from the `default` parameter (0.0 when the parameter is unset),
and every published orientation is the frame-transformed orientation rotated
by that default declination angle. -/
theorem default_declination_fallback (params : String → Option ℝ)
    (tl : TransformListener) (l : String) (i t : Imu)
    (h : imu_to_frame tl l i Imu.mk_default = .ok t) :
    startup_declination params =
      DeclinationTransform.set_declination ⟨⟨0, 0, 0, 0⟩⟩
        ((params "default").getD 0) ∧
    handle_imu i tl (startup_declination params) l =
      .ok { t with
            orientation :=
              (Quat.setEuler ((params "default").getD 0) 0 0).mul
                t.orientation } := by
  refine ⟨rfl, ?_⟩
  unfold handle_imu
  rw [h]
  exact rfl

/-- C8 (witness): with an empty parameter server (angle falls back to 0.0)
and the concrete successful run, the published orientation is the
frame-transformed orientation rotated by setEuler of the fallback angle. -/
theorem default_declination_fallback_witness :
    handle_imu sampleA tl_id (startup_declination fun _ => none) "base_link" =
      .ok { tA with
            orientation := (Quat.setEuler 0 0 0).mul tA.orientation } :=
  (default_declination_fallback (fun _ => none) tl_id "base_link" sampleA tA
    rfl).2

/-- C9: an invocation of handle_imu never mutates the caller's sample: the
sample held by the messaging layer is bit-for-bit the same after the
invocation, whether it published or failed. -/
theorem handle_imu_never_mutates_input (st : HandlerState)
    (tl : TransformListener) (l : String) :
    (handle_imu_run st tl l).1.caller_sample = st.caller_sample := by
  cases hh : handle_imu st.caller_sample tl st.declination l <;>
    simp [handle_imu_run, hh]

/-- C10: the three covariance arrays of every published message are the
all-zero arrays of the default-constructed local message; they are never
copied from the input sample. -/
theorem handle_imu_covariances_zero (i : Imu) (tl : TransformListener)
    (tr : DeclinationTransform) (l : String) (out : Imu)
    (h : handle_imu i tl tr l = .ok out) :
    out.orientation_covariance = (fun _ => 0) ∧
    out.angular_velocity_covariance = (fun _ => 0) ∧
    out.linear_acceleration_covariance = (fun _ => 0) := by
  obtain ⟨t, h1, rfl⟩ := handle_imu_ok_elim i tl tr l out h
  obtain ⟨oq, vq, aq, -, -, -, rfl⟩ :=
    imu_to_frame_ok_elim tl l i Imu.mk_default t h1
  exact ⟨rfl, rfl, rfl⟩

/-- C10 (witness): the concrete input carries all-one covariance arrays, yet
the published outA carries the all-zero arrays. -/
theorem handle_imu_covariances_zero_witness :
    (outA.orientation_covariance = (fun _ => 0) ∧
     outA.angular_velocity_covariance = (fun _ => 0) ∧
     outA.linear_acceleration_covariance = (fun _ => 0)) ∧
    sampleA.orientation_covariance = (fun _ => 1) :=
  ⟨handle_imu_covariances_zero sampleA tl_id trId "base_link" outA rfl, rfl⟩

end Declination
